import Mathlib

/-!
Verification development for the arXiv CS Daily client
(`src/unnamed/part_000` = list page script, `src/output/js/detail.js` = detail
page script).  The JavaScript source is shallowly embedded: DOM documents are
explicit structures, each HTTP response carries both its raw text and the DOM
that `DOMParser.parseFromString` yields on that text, and the throwing
behaviour of the source (a `TypeError` on `null.startsWith`, the explicit
`throw new Error(...)` calls of the detail page) is modelled with `Except`.
String primitives are implemented by structural recursion on the character
list so that every definition evaluates inside the kernel.
-/

/-- One author object as built by `parseArxivResponse`
(`{ name, affiliation }`). -/
structure Author where
  name : String
  affiliation : String
deriving Repr, DecidableEq

/-- The paper record pushed by `parseArxivResponse` in `part_000`
(fields `id, title, published, updated, summary, categories, authors,
pdfLink`). -/
structure Paper where
  id : String
  title : String
  published : String
  updated : String
  summary : String
  categories : List String
  authors : List Author
  pdfLink : String
deriving Repr, DecidableEq

/-- A `<category>` element of an entry; `term` is
`cat.getAttribute('term')`, which is `null` (here `none`) when the
attribute is absent. -/
structure CategoryNode where
  term : Option String
deriving Repr, DecidableEq

/-- An `<author>` element; `name` is
`author.querySelector('name')?.textContent` (`none` when there is no
`<name>` child). -/
structure AuthorNode where
  name : Option String
deriving Repr, DecidableEq

/-- A `<link>` element with its `title`, `type` and `href` attributes
(each `none` when absent). -/
structure LinkNode where
  title : Option String
  type : Option String
  href : Option String
deriving Repr, DecidableEq

/-- One `<entry>` element of an arXiv Atom feed, as the two scripts read
it: optional text children and the lists of category/author/link
elements.  A field is `none` when the corresponding child element is
missing from the entry. -/
structure Entry where
  idUrl : Option String
  title : Option String
  published : Option String
  updated : Option String
  summary : Option String
  categoryNodes : List CategoryNode
  authorNodes : List AuthorNode
  links : List LinkNode
deriving Repr, DecidableEq

/-- The document `DOMParser.parseFromString(text, 'text/xml')` produces:
`hasParseError` is true when the document contains a `parsererror`
element (the parser itself never throws), and `entries` are the `entry`
elements found in the document. -/
structure XmlDoc where
  hasParseError : Bool
  entries : List Entry
deriving Repr, DecidableEq

/-- An HTTP response as the proxy loops see it: the `ok` flag, the body
text (`await response.text()`), and the DOM that `parseFromString`
yields on that text.  Carrying the DOM alongside the text lets the
embedding stay executable. -/
structure HttpResponse where
  ok : Bool
  bodyText : String
  bodyDom : XmlDoc
deriving Repr, DecidableEq

/-- Outcome of one `fetch` call inside the loops: either the promise
rejected (network error / timeout — the `catch (error)` branch) or a
response arrived. -/
inductive FetchResult where
  | failure
  | success (r : HttpResponse)
deriving Repr, DecidableEq

/- ### JavaScript string primitives used by the scripts.
All are structural recursions over `String.data` so that concrete
instances evaluate in the kernel. -/

/-- `pat` is a leading segment of the second list. -/
def leadsList : List Char → List Char → Bool
  | [], _ => true
  | _ :: _, [] => false
  | p :: ps, x :: xs => p == x && leadsList ps xs

/-- Occurrence of `pat` anywhere in the list. -/
def containsSubList (pat : List Char) : List Char → Bool
  | [] => pat.isEmpty
  | x :: xs => leadsList pat (x :: xs) || containsSubList pat xs

/-- JavaScript `s.includes(pat)`. -/
def jsIncludes (s pat : String) : Bool :=
  containsSubList pat.data s.data

/-- JavaScript `s.startsWith(pat)`. -/
def jsStartsWith (s pat : String) : Bool :=
  leadsList pat.data s.data

/-- The detail page's test `data.includes('Error') || data.includes('error')`. -/
def includesError (s : String) : Bool :=
  jsIncludes s "Error" || jsIncludes s "error"

/-- Split a character list at every occurrence of the separator
character (the shape of JavaScript `s.split('/')` / `s.split(' ')`:
never empty, empty segments preserved). -/
def splitOnChar (c : Char) : List Char → List (List Char)
  | [] => [[]]
  | x :: xs =>
    if x == c then [] :: splitOnChar c xs
    else
      match splitOnChar c xs with
      | [] => [[x]]
      | y :: ys => (x :: y) :: ys

/-- JavaScript `s.split(c)` for a one-character separator. -/
def jsSplitOn (s : String) (c : Char) : List String :=
  (splitOnChar c s.data).map String.mk

/-- `url.split('/').pop()`: the final path segment of a URL.
The split result is never empty, so the default is never used. -/
def lastPathSegment (url : String) : String :=
  (jsSplitOn url '/').getLastD ""

/-- JavaScript `s.trim()`. -/
def jsTrim (s : String) : String :=
  String.mk (((s.data.dropWhile Char.isWhitespace).reverse.dropWhile Char.isWhitespace).reverse)

/-- JavaScript `x || d` on an optional string: `null`/`undefined` and
the empty string are falsy and give the default. -/
def jsOr (s : Option String) (d : String) : String :=
  match s with
  | none => d
  | some t => if t = "" then d else t

/-- JavaScript `arr.join(sep)` on an array of strings. -/
def jsJoin (sep : String) : List String → String
  | [] => ""
  | x :: xs => xs.foldl (fun acc y => acc ++ sep ++ y) x

/-- The numeric value of a list of decimal digits (`none` when empty or
not all digits). -/
def parseNatDigits (l : List Char) : Option Nat :=
  if l ≠ [] ∧ l.all Char.isDigit then
    some (l.foldl (fun acc c => acc * 10 + (c.toNat - 48)) 0)
  else none

/-- `new Date(s).getFullYear()`, modelled for the date strings this
application produces (ISO-8601 timestamps and bare `"2024"`-style
years, both of which start with the four-digit year). -/
def jsGetFullYear (s : String) : Nat :=
  (parseNatDigits (s.data.take 4)).getD 0

/-- `new Date(s).getTime()` (the numeric value compared by the sort in
`renderPaperList`), modelled for canonical fixed-width ISO-8601 UTC
timestamps, on which the concatenated digit string is monotone in
chronological order. -/
def jsDateMillis (s : String) : Nat :=
  (parseNatDigits (s.data.filter Char.isDigit)).getD 0

/-- `new Date(s).toISOString()`, modelled as the identity on the
canonical UTC ISO-8601 strings the sample dataset carries. -/
def jsDateToISOString (s : String) : String := s

/- ### CATEGORY_MAP (part_000 lines 2–43) -/

/-- The static `CATEGORY_MAP` object literal: short subject tag to
human-readable label. -/
def CATEGORY_MAP : List (String × String) :=
  [("cs.AI", "Artificial Intelligence"),
   ("cs.CL", "Computation and Language"),
   ("cs.CC", "Computational Complexity"),
   ("cs.CE", "Computational Engineering, Finance, and Science"),
   ("cs.CG", "Computational Geometry"),
   ("cs.GT", "Computer Science and Game Theory"),
   ("cs.CV", "Computer Vision and Pattern Recognition"),
   ("cs.CY", "Computers and Society"),
   ("cs.CR", "Cryptography and Security"),
   ("cs.DS", "Data Structures and Algorithms"),
   ("cs.DB", "Databases"),
   ("cs.DL", "Digital Libraries"),
   ("cs.DM", "Discrete Mathematics"),
   ("cs.DC", "Distributed, Parallel, and Cluster Computing"),
   ("cs.ET", "Emerging Technologies"),
   ("cs.FL", "Formal Languages and Automata Theory"),
   ("cs.GL", "General Literature"),
   ("cs.GR", "Graphics"),
   ("cs.AR", "Hardware Architecture"),
   ("cs.HC", "Human-Computer Interaction"),
   ("cs.IR", "Information Retrieval"),
   ("cs.IT", "Information Theory"),
   ("cs.LG", "Machine Learning"),
   ("cs.LO", "Logic in Computer Science"),
   ("cs.MS", "Mathematical Software"),
   ("cs.MA", "Multiagent Systems"),
   ("cs.MM", "Multimedia"),
   ("cs.NI", "Networking and Internet Architecture"),
   ("cs.NE", "Neural and Evolutionary Computing"),
   ("cs.NUM", "Numerical Analysis"),
   ("cs.OS", "Operating Systems"),
   ("cs.OH", "Other"),
   ("cs.PF", "Performance"),
   ("cs.PL", "Programming Languages"),
   ("cs.RO", "Robotics"),
   ("cs.SI", "Social and Information Networks"),
   ("cs.SE", "Software Engineering"),
   ("cs.SD", "Sound"),
   ("cs.SC", "Symbolic Computation"),
   ("cs.SY", "Systems and Control")]

/- ### Response Normalizer (`parseArxivResponse`, part_000 lines 155–196) -/

/-- The category pipeline
`entries.map(cat => cat.getAttribute('term')).filter(term => term.startsWith('cs.'))`.
`getAttribute` returns `null` for a missing attribute, and
`null.startsWith` throws a `TypeError`, which aborts the whole
`parseArxivResponse` call; that throw is the `.error ()` case. -/
def jsFilterCs : List (Option String) → Except Unit (List String)
  | [] => .ok []
  | none :: _ => .error ()
  | some t :: rest =>
    match jsFilterCs rest with
    | .error e => .error e
    | .ok r => .ok (if jsStartsWith t "cs." then t :: r else r)

/-- The body of the `entries.forEach` loop in `parseArxivResponse`: one
entry becomes one pushed record, except that a category element without
a `term` attribute makes the whole call throw. -/
def normalizeEntry (e : Entry) : Except Unit Paper :=
  match jsFilterCs (e.categoryNodes.map (fun c => c.term)) with
  | .error err => .error err
  | .ok cats =>
    .ok
      { id := (e.idUrl.map lastPathSegment).getD ""
        title := (e.title.map jsTrim).getD ""
        published := e.published.getD ""
        updated := e.updated.getD ""
        summary := (e.summary.map jsTrim).getD ""
        categories := cats
        authors := e.authorNodes.map (fun a => { name := a.name.getD "", affiliation := "" })
        pdfLink :=
          match e.links.find? (fun l => l.title == some "pdf") with
          | some l => l.href.getD ""
          | none => "" }

/-- The `entries.forEach` loop: one record per entry, in order, with a
throw in any iteration aborting the whole call. -/
def parseEntries : List Entry → Except Unit (List Paper)
  | [] => .ok []
  | e :: rest =>
    match normalizeEntry e with
    | .error err => .error err
    | .ok p =>
      match parseEntries rest with
      | .error err => .error err
      | .ok ps => .ok (p :: ps)

/-- `parseArxivResponse` (part_000): queries all `entry` elements of the
parsed document and pushes one record per entry.  Note that the list
script never consults the `parsererror` state of the document: a
malformed input simply contributes whatever entries the error document
exposes (none, for garbage input). -/
def parseArxivResponse (doc : XmlDoc) : Except Unit (List Paper) :=
  parseEntries doc.entries

/- ### Detail-page parser (`fetchPaperDetails`, detail.js lines 76–123) -/

/-- The record the detail page displays (fields `title, authors,
published, summary, pdfLink`; `published` is kept raw here — locale
formatting of dates is a view concern outside the core). -/
structure DetailPaper where
  title : String
  authors : List String
  published : String
  summary : String
  pdfLink : String
deriving Repr, DecidableEq

/-- The two `throw new Error(...)` outcomes of the detail page's parse
step: `'Invalid XML response'` on a `parsererror` document, and
`'Paper not found in API response'` when no `entry` element exists. -/
inductive DetailParseError where
  | invalidXml
  | notFound
deriving Repr, DecidableEq

/-- The link scan of the detail page: first `<link>` whose `title`
attribute is `"pdf"` or whose `type` attribute is
`"application/pdf"`; its `href` (`null` becomes the empty string, which
the subsequent `if (!pdfLink)` turns into a synthesized URL). -/
def detailPdfLink (id : String) (links : List LinkNode) : String :=
  let raw :=
    match links.find? (fun l => l.title == some "pdf" || l.type == some "application/pdf") with
    | some l => l.href.getD ""
    | none => ""
  if raw = "" then "https://arxiv.org/pdf/" ++ id ++ ".pdf" else raw

/-- The parse-and-extract step of `fetchPaperDetails`: reject
`parsererror` documents, take the first entry or fail, and read the
displayed fields with their `|| dflt` defaults. -/
def parseDetailResponse (doc : XmlDoc) (id : String) : Except DetailParseError DetailPaper :=
  if doc.hasParseError then .error .invalidXml
  else
    match doc.entries with
    | [] => .error .notFound
    | e :: _ =>
      .ok
        { title := jsOr e.title "No title"
          authors := e.authorNodes.map (fun a => jsOr a.name "Unknown author")
          published := jsOr e.published "Unknown date"
          summary := jsOr e.summary "No summary available"
          pdfLink := detailPdfLink id e.links }

/- ### The proxy loops -/

/-- The `for` loop of `loadPapersForToday` (part_000 lines 101–125):
returns the response whose body was assigned to `data` before `break`
(none when the loop ran to completion) together with the number of
`fetch` calls issued.  The loop breaks on the first `response.ok`,
with no inspection of the body. -/
def listLoop : List FetchResult → Option HttpResponse × Nat
  | [] => (none, 0)
  | .failure :: rest =>
    let (d, n) := listLoop rest
    (d, n + 1)
  | .success r :: rest =>
    if r.ok then (some r, 1)
    else
      let (d, n) := listLoop rest
      (d, n + 1)

/-- The `for` loop of `fetchPaperDetails` (detail.js lines 30–66).  On
an `ok` response the body is assigned to `data` first; if it contains
the substring `'Error'` or `'error'` the loop `continue`s (so `data`
keeps that body), otherwise it breaks.  `acc` is the value of `data`
entering the iteration.  Returns the final value of `data` and the
number of `fetch` calls issued. -/
def detailLoop (acc : Option HttpResponse) : List FetchResult → Option HttpResponse × Nat
  | [] => (acc, 0)
  | .failure :: rest =>
    let (d, n) := detailLoop acc rest
    (d, n + 1)
  | .success r :: rest =>
    if r.ok then
      if includesError r.bodyText then
        let (d, n) := detailLoop (some r) rest
        (d, n + 1)
      else (some r, 1)
    else
      let (d, n) := detailLoop acc rest
      (d, n + 1)

/- ### Fallback Data Provider, list mode (`getSamplePapers`, part_000 lines 278–318) -/

/-- One value of the `data.samplePapers` map in `data/sample-papers.json`
as the list page reads it (that file is not part of the repository
source; only the fields the script accesses are modelled). -/
structure SampleJsonListPaper where
  id : String
  title : String
  published : String
  summary : String
  categories : List String
  authors : List String
  pdfLink : String
deriving Repr, DecidableEq

/-- Outcome of the `fetch('data/sample-papers.json')` in
`getSamplePapers`: either the parsed `Object.values(data.samplePapers)`
or any failure (non-ok status, network error, bad JSON), which lands in
the `catch` branch. -/
inductive SampleSource where
  | fetched (papers : List SampleJsonListPaper)
  | fetchFailed
deriving Repr, DecidableEq

/-- The hardcoded literal record `getSamplePapers` falls back to when
the JSON read fails (part_000 lines 302–316). -/
def hardcodedSamplePaper : Paper :=
  { id := "2401.12345"
    title := "Sample Paper: Advances in Machine Learning"
    published := "2024-01-01T00:00:00Z"
    updated := "2024-01-01T00:00:00Z"
    summary := "This is a sample paper demonstrating the capabilities of the arXiv CS Daily application."
    categories := ["cs.LG", "cs.AI"]
    authors := [{ name := "John Doe", affiliation := "University of Example" },
                { name := "Jane Smith", affiliation := "Tech Institute" }]
    pdfLink := "https://arxiv.org/pdf/2401.12345.pdf" }

/-- `getSamplePapers`: convert the JSON records to the expected shape,
or fall back to the hardcoded literal list on any read failure. -/
def getSamplePapers : SampleSource → List Paper
  | .fetched ps =>
    ps.map (fun p =>
      { id := p.id
        title := p.title
        published := jsDateToISOString p.published
        updated := jsDateToISOString p.published
        summary := p.summary
        categories := p.categories
        authors := p.authors.map (fun n => { name := n, affiliation := "" })
        pdfLink := p.pdfLink })
  | .fetchFailed => [hardcodedSamplePaper]

/- ### `loadPapersForToday` (part_000 lines 67–153) -/

/-- What `loadPapersForToday` hands to `renderPaperList` and on which
branch: `api` when the broken-out body parsed, `fallbackUnavailable`
for the `if (!data)` branch (`'API proxies unavailable'`), and
`fallbackError` for the outer `catch` (a parse throw).  The carried
list is exactly the `papersData` passed to `renderPaperList`. -/
inductive LoadResult where
  | api (papers : List Paper)
  | fallbackUnavailable (papers : List Paper)
  | fallbackError (papers : List Paper)
deriving Repr, DecidableEq

/-- `loadPapersForToday`, parametrised by the outcomes of the three
proxy fetches and of the sample-data read.  `data` is falsy when no
response broke out of the loop or when the broken-out body is the empty
string; a throw inside `parseArxivResponse` is caught by the outer
`catch`, which also renders sample data. -/
def loadPapersForToday (proxies : List FetchResult) (s : SampleSource) : LoadResult :=
  match listLoop proxies with
  | (none, _) => .fallbackUnavailable (getSamplePapers s)
  | (some r, _) =>
    if r.bodyText = "" then .fallbackUnavailable (getSamplePapers s)
    else
      match parseArxivResponse r.bodyDom with
      | .ok papers => .api papers
      | .error _ => .fallbackError (getSamplePapers s)

/- ### Fallback Data Provider, lookup-by-id mode
(`displaySamplePaperDetails`, detail.js lines 148–231) -/

/-- Outcome of the `fetch('data/sample-papers.json')` in the detail
page: the parsed JSON (a keyed map of sample papers plus one
`defaultSamplePaper`), or any failure, which lands in the `catch`
branch. -/
structure SampleJson where
  samplePapers : List (String × DetailPaper)
  defaultSamplePaper : DetailPaper
deriving Repr, DecidableEq

/-- Result of the detail page's sample-JSON read. -/
inductive SampleJsonFetch where
  | fetched (j : SampleJson)
  | failed
deriving Repr, DecidableEq

/-- JavaScript object-key lookup `m[id]` on a keyed record map. -/
def lookupKey (m : List (String × DetailPaper)) (id : String) : Option DetailPaper :=
  (m.find? (fun kv => kv.1 == id)).map (fun kv => kv.2)

/-- The `hardcodedSamplePapers` object literal of
`displaySamplePaperDetails` (detail.js lines 180–202). -/
def hardcodedSamplePapers : List (String × DetailPaper) :=
  [("2401.12345",
    { title := "Sample Paper: Advances in Machine Learning"
      authors := ["John Doe", "Jane Smith"]
      published := "January 1, 2024"
      summary := "This is a sample paper demonstrating the capabilities of the arXiv CS Daily application. It showcases recent advances in machine learning algorithms and their practical applications."
      pdfLink := "https://arxiv.org/pdf/2401.12345.pdf" }),
   ("2401.12346",
    { title := "Sample Paper: Computer Vision Applications"
      authors := ["Alice Johnson"]
      published := "January 1, 2024"
      summary := "Exploring recent developments in computer vision and image recognition. This paper discusses novel approaches to object detection and image classification."
      pdfLink := "https://arxiv.org/pdf/2401.12346.pdf" }),
   ("2401.12347",
    { title := "Sample Paper: Natural Language Processing Trends"
      authors := ["Bob Wilson", "Carol Brown"]
      published := "January 1, 2024"
      summary := "Analysis of current trends in natural language processing and text understanding. This research focuses on transformer architectures and their applications."
      pdfLink := "https://arxiv.org/pdf/2401.12347.pdf" })]

/-- The generic object literal `hardcodedSamplePapers[id] || {...}` falls
back to (detail.js lines 204–210). -/
def genericSamplePaper : DetailPaper :=
  { title := "Sample Paper"
    authors := ["Sample Author"]
    published := "2024"
    summary := "This is a sample paper demonstrating the arXiv CS Daily application functionality."
    pdfLink := "https://arxiv.org/abs/2401.00001" }

/-- `displaySamplePaperDetails` (the record it renders): when the JSON
read succeeds, the entry keyed by `id` or else `defaultSamplePaper`;
when it fails, the hardcoded literal keyed by `id` or else the generic
built-in record. -/
def displaySamplePaperDetails (id : String) : SampleJsonFetch → DetailPaper
  | .fetched j =>
    match lookupKey j.samplePapers id with
    | some p => p
    | none => j.defaultSamplePaper
  | .failed =>
    match lookupKey hardcodedSamplePapers id with
    | some p => p
    | none => genericSamplePaper

/- ### `fetchPaperDetails` (detail.js lines 13–130) -/

/-- What the detail page renders and on which branch: `api` when a
broken-out body parsed to an entry, `sample` for every failure path
(no usable body, parse error, missing entry — all funnel into
`displaySamplePaperDetails`). -/
inductive DetailResult where
  | api (p : DetailPaper)
  | sample (p : DetailPaper)
deriving Repr, DecidableEq

/-- `fetchPaperDetails`, parametrised by the proxy fetch outcomes and
the sample-JSON read outcome. -/
def fetchPaperDetails (id : String) (proxies : List FetchResult) (sf : SampleJsonFetch) : DetailResult :=
  match detailLoop none proxies with
  | (none, _) => .sample (displaySamplePaperDetails id sf)
  | (some r, _) =>
    if r.bodyText = "" then .sample (displaySamplePaperDetails id sf)
    else
      match parseDetailResponse r.bodyDom id with
      | .ok p => .api p
      | .error _ => .sample (displaySamplePaperDetails id sf)

/- ### List View rendering (`renderPaperList`, part_000 lines 198–226) -/

/-- The numeric sort key `new Date(paper.published)` of the comparator. -/
def publishedVal (p : Paper) : Nat :=
  jsDateMillis p.published

/-- Insert one paper into a list kept in descending `publishedVal`
order. -/
def insertDesc (p : Paper) : List Paper → List Paper
  | [] => [p]
  | q :: rest =>
    if publishedVal q ≤ publishedVal p then p :: q :: rest
    else q :: insertDesc p rest

/-- `filteredPapers.sort((a, b) => new Date(b.published) - new
Date(a.published))`: a permutation sorted descending by the published
date.  The comparator determines the result only up to tie order, which
none of the stated properties depend on; insertion sort realizes one
such sorted permutation. -/
def sortByPublishedDesc (l : List Paper) : List Paper :=
  l.foldr insertDesc []

/-- `renderPaperList` as a data transformation: the sequence of papers
written into the container, or `none` for the `'No papers found'`
message branch. -/
def renderPaperList (currentCategory : String) (papers : List Paper) : Option (List Paper) :=
  let filteredPapers :=
    if currentCategory = "all" then papers
    else papers.filter (fun paper => paper.categories.contains currentCategory)
  if filteredPapers.isEmpty then none
  else some (sortByPublishedDesc filteredPapers)

/- ### Citation generators (detail.js lines 248–273) -/

/-- One author name through `parts.pop()` / `parts.join(' ')`:
`"First Last"` becomes `"Last, First"`. -/
def bibtexAuthor (name : String) : String :=
  let parts := jsSplitOn name ' '
  (parts.getLastD "") ++ ", " ++ jsJoin " " parts.dropLast

/-- `generateBibtex`: the formatted BibTeX string.  (`authors.map`
allocates a fresh array and each `name.split` a fresh `parts`, so the
arguments are untouched; the function is a pure value computation.) -/
def generateBibtex (id title : String) (authors : List String) (published : String) : String :=
  "@article\x7b" ++ id ++ ",\n  title=\x7b" ++ title ++ "\x7d,\n  author=\x7b"
    ++ jsJoin " and " (authors.map bibtexAuthor)
    ++ "\x7d,\n  journal=\x7barXiv preprint arXiv:" ++ id ++ "\x7d,\n  year=\x7b"
    ++ toString (jsGetFullYear published) ++ "\x7d\n\x7d"

/-- `generateStandardCitation`.  The source mutates its argument:
`authors.pop()` removes the last element of the caller's array whenever
`authors.length > 1`.  The embedding therefore returns the formatted
string together with the final contents of the `authors` array. -/
def generateStandardCitation (title : String) (authors : List String) (published : String) :
    String × List String :=
  let year := jsGetFullYear published
  if authors.length > 1 then
    let lastAuthor := authors.getLastD ""
    let remaining := authors.dropLast
    (jsJoin ", " remaining ++ " and " ++ lastAuthor
      ++ " (" ++ toString year ++ "). " ++ title ++ ". arXiv preprint.", remaining)
  else
    (jsJoin ", " authors
      ++ " (" ++ toString year ++ "). " ++ title ++ ". arXiv preprint.", authors)

/- ### Spec-side predicates (from the spec's words, for comparison with
the source's loops) -/

/-- From the spec: a "structurally valid, non-error body" — a
successful status whose body is non-empty, parses as the expected
document format, and does not signal an embedded error (the error
signal modelled by the source's own substring test). -/
def specValidBody (r : HttpResponse) : Bool :=
  r.ok && r.bodyText != "" && !r.bodyDom.hasParseError && !includesError r.bodyText

/-- From the spec: an attempt fails when the fetch throws, the status
is non-success, or the body is empty / structurally invalid / signals
an embedded error. -/
def specAttemptFailure : FetchResult → Bool
  | .failure => true
  | .success r => !specValidBody r

/-- The list loop's actual break condition: an `ok` status. -/
def listAccepted : FetchResult → Bool
  | .failure => false
  | .success r => r.ok

/-- The detail loop's actual break condition: an `ok` status whose body
lacks the `'Error'`/`'error'` substrings. -/
def detailBreaks : FetchResult → Bool
  | .failure => false
  | .success r => r.ok && !includesError r.bodyText

/-- How one non-breaking iteration of the detail loop updates `data`:
an `ok` response with an errorful body overwrites it, everything else
leaves it alone. -/
def detailNextAcc (acc : Option HttpResponse) : FetchResult → Option HttpResponse
  | .failure => acc
  | .success r => if r.ok && includesError r.bodyText then some r else acc

/-- An attempt that fails at the HTTP level (thrown fetch or non-ok
status) — the only failures the loops actually skip past. -/
def codeAttemptFails : FetchResult → Bool
  | .failure => true
  | .success r => !r.ok

/- ### Helper lemmas about the loops -/

theorem listLoop_skip (f : FetchResult) (rest : List FetchResult)
    (h : listAccepted f = false) :
    listLoop (f :: rest) = ((listLoop rest).1, (listLoop rest).2 + 1) := by
  cases f with
  | failure => simp [listLoop]
  | success r =>
    simp only [listAccepted] at h
    simp [listLoop, h]

theorem listLoop_first (pre rest : List FetchResult) (r : HttpResponse)
    (hpre : ∀ f ∈ pre, listAccepted f = false) (hr : r.ok = true) :
    listLoop (pre ++ FetchResult.success r :: rest) = (some r, pre.length + 1) := by
  induction pre with
  | nil => simp [listLoop, hr]
  | cons f fs ih =>
    have hf := hpre f (List.mem_cons_self f fs)
    have ihs := ih (fun g hg => hpre g (List.mem_cons_of_mem f hg))
    rw [List.cons_append, listLoop_skip f _ hf, ihs]
    simp

theorem listLoop_allFail (l : List FetchResult)
    (h : ∀ f ∈ l, codeAttemptFails f = true) :
    listLoop l = (none, l.length) := by
  induction l with
  | nil => rfl
  | cons f fs ih =>
    have hf := h f (List.mem_cons_self f fs)
    have ihs := ih (fun g hg => h g (List.mem_cons_of_mem f hg))
    cases f with
    | failure => simp [listLoop, ihs]
    | success r =>
      simp only [codeAttemptFails, Bool.not_eq_true'] at hf
      simp [listLoop, hf, ihs]

theorem detailLoop_skip (f : FetchResult) (rest : List FetchResult)
    (acc : Option HttpResponse) (h : detailBreaks f = false) :
    detailLoop acc (f :: rest)
      = ((detailLoop (detailNextAcc acc f) rest).1,
         (detailLoop (detailNextAcc acc f) rest).2 + 1) := by
  cases f with
  | failure => simp [detailLoop, detailNextAcc]
  | success r =>
    simp only [detailBreaks, Bool.and_eq_false_iff, Bool.not_eq_false] at h
    by_cases hok : r.ok
    · have herr : includesError r.bodyText = true := by
        rcases h with h | h
        · exact absurd hok (by simp [h])
        · simpa using h
      simp [detailLoop, detailNextAcc, hok, herr]
    · simp [detailLoop, detailNextAcc, hok]

theorem detailLoop_first (pre rest : List FetchResult) (r : HttpResponse)
    (acc : Option HttpResponse)
    (hpre : ∀ f ∈ pre, detailBreaks f = false)
    (hr : (r.ok && !includesError r.bodyText) = true) :
    detailLoop acc (pre ++ FetchResult.success r :: rest) = (some r, pre.length + 1) := by
  induction pre generalizing acc with
  | nil =>
    rcases Bool.and_eq_true_iff.mp hr with ⟨hok, herr⟩
    simp only [Bool.not_eq_true'] at herr
    simp [detailLoop, hok, herr]
  | cons f fs ih =>
    have hf := hpre f (List.mem_cons_self f fs)
    have ihs := ih (detailNextAcc acc f) (fun g hg => hpre g (List.mem_cons_of_mem f hg))
    rw [List.cons_append, detailLoop_skip f _ acc hf, ihs]
    simp

theorem detailLoop_allFail (l : List FetchResult) (acc : Option HttpResponse)
    (h : ∀ f ∈ l, codeAttemptFails f = true) :
    detailLoop acc l = (acc, l.length) := by
  induction l generalizing acc with
  | nil => rfl
  | cons f fs ih =>
    have hf := h f (List.mem_cons_self f fs)
    have ihs := ih acc (fun g hg => h g (List.mem_cons_of_mem f hg))
    cases f with
    | failure => simp [detailLoop, ihs]
    | success r =>
      simp only [codeAttemptFails, Bool.not_eq_true'] at hf
      simp [detailLoop, hf, ihs]

/- ### Helper lemmas about the normalizer -/

theorem jsFilterCs_eq (l : List (Option String))
    (h : ∀ o ∈ l, o.isSome = true) :
    jsFilterCs l
      = .ok ((l.filterMap (fun o => o)).filter (fun t => jsStartsWith t "cs.")) := by
  induction l with
  | nil => rfl
  | cons o rest ih =>
    cases o with
    | none => exact absurd (h none (List.mem_cons_self none rest)) (by simp)
    | some t =>
      have ihs := ih (fun x hx => h x (List.mem_cons_of_mem _ hx))
      by_cases hs : jsStartsWith t "cs."
        <;> simp [jsFilterCs, ihs, hs, List.filterMap_cons, List.filter_cons]

theorem jsFilterCs_ok_startsWith (l : List (Option String)) (cats : List String)
    (h : jsFilterCs l = .ok cats) :
    ∀ t ∈ cats, jsStartsWith t "cs." = true := by
  induction l generalizing cats with
  | nil =>
    simp only [jsFilterCs] at h
    cases h
    intro t ht
    cases ht
  | cons o rest ih =>
    cases o with
    | none => simp [jsFilterCs] at h
    | some s =>
      simp only [jsFilterCs] at h
      cases hr : jsFilterCs rest with
      | error e => simp [hr] at h
      | ok r =>
        simp only [hr] at h
        have hrs := ih r hr
        by_cases hs : jsStartsWith s "cs."
        · rw [if_pos hs] at h
          cases h
          intro t ht
          rcases List.mem_cons.mp ht with rfl | ht
          · exact hs
          · exact hrs t ht
        · rw [if_neg hs] at h
          cases h
          exact hrs

theorem normalizeEntry_ok (e : Entry)
    (h : ∀ c ∈ e.categoryNodes, c.term.isSome = true) :
    normalizeEntry e
      = .ok
        { id := (e.idUrl.map lastPathSegment).getD ""
          title := (e.title.map jsTrim).getD ""
          published := e.published.getD ""
          updated := e.updated.getD ""
          summary := (e.summary.map jsTrim).getD ""
          categories :=
            ((e.categoryNodes.map (fun c => c.term)).filterMap
                (fun o => o)).filter (fun t => jsStartsWith t "cs.")
          authors := e.authorNodes.map (fun a => { name := a.name.getD "", affiliation := "" })
          pdfLink :=
            match e.links.find? (fun l => l.title == some "pdf") with
            | some l => l.href.getD ""
            | none => "" } := by
  have hterms : ∀ o ∈ e.categoryNodes.map (fun c => c.term), o.isSome = true := by
    intro o ho
    rcases List.mem_map.mp ho with ⟨c, hc, rfl⟩
    exact h c hc
  simp only [normalizeEntry, jsFilterCs_eq _ hterms]

theorem lastPathSegment_getD (u : Option String) :
    (u.map lastPathSegment).getD "" = lastPathSegment (u.getD "") := by
  cases u with
  | none => rfl
  | some s => rfl

/- ### Helper lemmas about the List View sort -/

/-- The output order asserted of the List View: pairwise, the published
value of any later element is at most that of any earlier one. -/
def SortedDesc (l : List Paper) : Prop :=
  l.Pairwise (fun a b => publishedVal b ≤ publishedVal a)

theorem mem_insertDesc (p a : Paper) (l : List Paper) :
    a ∈ insertDesc p l ↔ a = p ∨ a ∈ l := by
  induction l with
  | nil => simp [insertDesc]
  | cons q rest ih =>
    simp only [insertDesc]
    by_cases hle : publishedVal q ≤ publishedVal p
    · rw [if_pos hle]
      simp [List.mem_cons]
    · rw [if_neg hle]
      simp only [List.mem_cons, ih]
      tauto

theorem insertDesc_sorted (p : Paper) (l : List Paper) (h : SortedDesc l) :
    SortedDesc (insertDesc p l) := by
  induction l with
  | nil => simp [insertDesc, SortedDesc]
  | cons q rest ih =>
    rcases List.pairwise_cons.mp h with ⟨hq, hrest⟩
    simp only [insertDesc]
    by_cases hle : publishedVal q ≤ publishedVal p
    · rw [if_pos hle]
      refine List.pairwise_cons.mpr ⟨?_, h⟩
      intro b hb
      rcases List.mem_cons.mp hb with rfl | hb
      · exact hle
      · exact le_trans (hq b hb) hle
    · rw [if_neg hle]
      refine List.pairwise_cons.mpr ⟨?_, ih hrest⟩
      intro b hb
      rcases (mem_insertDesc p b rest).mp hb with rfl | hb
      · exact le_of_not_le hle
      · exact hq b hb

theorem sortByPublishedDesc_sorted (l : List Paper) :
    SortedDesc (sortByPublishedDesc l) := by
  induction l with
  | nil => exact List.Pairwise.nil
  | cons p rest ih => exact insertDesc_sorted p _ ih

/- ### Concrete fixtures used by counterexamples and witnesses -/

/-- An HTTP-ok response whose body is garbage: non-empty text that the
XML parser rejects (`parsererror` document, no entries). -/
def okBadBody : HttpResponse :=
  { ok := true, bodyText := "<bad", bodyDom := { hasParseError := true, entries := [] } }

/-- An HTTP-ok response with an empty body (its parse is the usual
`parsererror` document of empty input). -/
def okEmptyBody : HttpResponse :=
  { ok := true, bodyText := "", bodyDom := { hasParseError := true, entries := [] } }

/-- A fully populated, well-formed feed entry. -/
def feedEntry : Entry :=
  { idUrl := some "http://arxiv.org/abs/2401.00001v1"
    title := some "A Study"
    published := some "2024-01-01T00:00:00Z"
    updated := some "2024-01-02T00:00:00Z"
    summary := some "A summary."
    categoryNodes := [{ term := some "cs.LG" }, { term := some "math.CO" }]
    authorNodes := [{ name := some "Ann Author" }]
    links := [{ title := some "pdf", type := some "application/pdf",
                href := some "http://arxiv.org/pdf/2401.00001v1" }] }

/-- An HTTP-ok response carrying a structurally valid single-entry feed
whose text contains no error substring. -/
def okFeedBody : HttpResponse :=
  { ok := true, bodyText := "<feed><entry/></feed>",
    bodyDom := { hasParseError := false, entries := [feedEntry] } }

/-- An entry whose single category element has no `term` attribute. -/
def termlessEntry : Entry :=
  { idUrl := some "http://arxiv.org/abs/2401.99999v1"
    title := some "A Title"
    published := some "2024-01-01T00:00:00Z"
    updated := some "2024-01-01T00:00:00Z"
    summary := some "S"
    categoryNodes := [{ term := none }]
    authorNodes := []
    links := [] }

/-- An entry carrying the category term `cs.ZZ`, which matches the
namespace test but is not a key of `CATEGORY_MAP`. -/
def zzEntry : Entry :=
  { idUrl := some "http://arxiv.org/abs/2401.11111v1"
    title := some "T"
    published := some "2024-01-01T00:00:00Z"
    updated := some "2024-01-01T00:00:00Z"
    summary := some "S"
    categoryNodes := [{ term := some "cs.ZZ" }]
    authorNodes := []
    links := [] }

/-- An entry with every optional child missing and one category tag
outside the recognized namespace. -/
def bareEntry : Entry :=
  { idUrl := none, title := none, published := none, updated := none, summary := none
    categoryNodes := [{ term := some "math.CO" }]
    authorNodes := []
    links := [] }

/-- Well-formedness of an entry for the normalizer: it has an identifier
URL and every category element carries its `term` attribute. -/
def WellFormedEntry (e : Entry) : Prop :=
  e.idUrl.isSome = true ∧ ∀ c ∈ e.categoryNodes, c.term.isSome = true

instance (e : Entry) : Decidable (WellFormedEntry e) := by
  unfold WellFormedEntry
  infer_instance

/- ### C1 -/

/-- C1 counterexample: intermediary 1 answers HTTP-ok with a
structurally invalid body, so intermediary 2 holds the first
structurally valid non-error body (k = 2); yet the list-page loop stops
at intermediary 1 after a single request — it neither issues a request
to intermediary 2 nor returns intermediary 2's body, refuting the claim
at this input. -/
theorem c1_counterexample :
    specValidBody okBadBody = false
    ∧ specValidBody okFeedBody = true
    ∧ listLoop [FetchResult.success okBadBody, FetchResult.success okFeedBody]
        = (some okBadBody, 1)
    ∧ okBadBody.bodyText ≠ okFeedBody.bodyText :=
  ⟨by decide, by decide, by decide, by decide⟩

/-- C1 (amended): if intermediary k (= `pre.length + 1`) is the first
whose attempt yields an HTTP-ok response — in the detail path, an ok
response whose body also lacks the `'Error'`/`'error'` substrings —
then the pipeline loop stops there: it returns exactly that response
after exactly k requests, independently of the later intermediaries
`rest`, which are never contacted. -/
theorem c1_first_accepted_stops (pre rest : List FetchResult) (r : HttpResponse) :
    ((∀ f ∈ pre, listAccepted f = false) → r.ok = true →
      listLoop (pre ++ FetchResult.success r :: rest) = (some r, pre.length + 1))
    ∧ (∀ acc, (∀ f ∈ pre, detailBreaks f = false) →
        (r.ok && !includesError r.bodyText) = true →
        detailLoop acc (pre ++ FetchResult.success r :: rest) = (some r, pre.length + 1)) :=
  ⟨fun hpre hr => listLoop_first pre rest r hpre hr,
   fun acc hpre hr => detailLoop_first pre rest r acc hpre hr⟩

/-- C1 witness: one failed attempt, then a valid body at intermediary 2,
with a further intermediary behind it; both loops stop at position 2
with two requests issued. -/
theorem c1_first_accepted_stops_witness :
    listLoop ([FetchResult.failure] ++ FetchResult.success okFeedBody :: [FetchResult.failure])
      = (some okFeedBody, 1 + 1)
    ∧ detailLoop none
        ([FetchResult.failure] ++ FetchResult.success okFeedBody :: [FetchResult.failure])
      = (some okFeedBody, 1 + 1) :=
  ⟨(c1_first_accepted_stops [FetchResult.failure] [FetchResult.failure] okFeedBody).1
      (by decide) (by decide),
   (c1_first_accepted_stops [FetchResult.failure] [FetchResult.failure] okFeedBody).2 none
      (by decide) (by decide)⟩

/- ### C2 -/

/-- C2 counterexample: the first intermediary answers HTTP-ok with an
empty body — per the claim this is an attempt failure after which the
pipeline must proceed to the next intermediary.  Instead the loop
breaks at intermediary 1 (one single request, though intermediary 2
holds a valid body) and the page reports total failure with fallback
data. -/
theorem c2_counterexample :
    specAttemptFailure (FetchResult.success okEmptyBody) = true
    ∧ specValidBody okFeedBody = true
    ∧ listLoop [FetchResult.success okEmptyBody, FetchResult.success okFeedBody]
        = (some okEmptyBody, 1)
    ∧ loadPapersForToday [FetchResult.success okEmptyBody, FetchResult.success okFeedBody]
        SampleSource.fetchFailed
        = LoadResult.fallbackUnavailable [hardcodedSamplePaper] :=
  ⟨by decide, by decide, by decide, by decide⟩

/-- C2 (amended): the attempt failures the loops actually skip past are
a thrown fetch or a non-ok status (both paths) and, in the detail path
only, an ok body containing the `'Error'`/`'error'` substrings; on such
a failure the pipeline proceeds to the next intermediary — the outcome
is that of the remaining list, with one more request counted (in the
detail path the `data` variable is updated as the source does). -/
theorem c2_failed_attempt_proceeds (f : FetchResult) (rest : List FetchResult) :
    (listAccepted f = false →
      listLoop (f :: rest) = ((listLoop rest).1, (listLoop rest).2 + 1))
    ∧ (∀ acc, detailBreaks f = false →
        detailLoop acc (f :: rest)
          = ((detailLoop (detailNextAcc acc f) rest).1,
             (detailLoop (detailNextAcc acc f) rest).2 + 1)) :=
  ⟨fun h => listLoop_skip f rest h, fun acc h => detailLoop_skip f rest acc h⟩

/-- C2 witness: a thrown first attempt, with a valid body waiting at the
next intermediary, advances both loops to that next intermediary. -/
theorem c2_failed_attempt_proceeds_witness :
    listLoop [FetchResult.failure, FetchResult.success okFeedBody]
      = ((listLoop [FetchResult.success okFeedBody]).1,
         (listLoop [FetchResult.success okFeedBody]).2 + 1)
    ∧ detailLoop none [FetchResult.failure, FetchResult.success okFeedBody]
      = ((detailLoop (detailNextAcc none FetchResult.failure) [FetchResult.success okFeedBody]).1,
         (detailLoop (detailNextAcc none FetchResult.failure) [FetchResult.success okFeedBody]).2 + 1) :=
  ⟨(c2_failed_attempt_proceeds FetchResult.failure [FetchResult.success okFeedBody]).1 (by decide),
   (c2_failed_attempt_proceeds FetchResult.failure [FetchResult.success okFeedBody]).2 none (by decide)⟩

/- ### C3 -/

/-- C3 counterexample: every attempt fails in the claim's sense (the
first is HTTP-ok but structurally invalid, the other two throw), yet
the list page does not signal total failure: it renders the empty
record list parsed out of the invalid body, which differs from the
Fallback Data Provider's non-empty output — the view is left blank of
records. -/
theorem c3_counterexample :
    ([FetchResult.success okBadBody, FetchResult.failure, FetchResult.failure].all
        specAttemptFailure) = true
    ∧ loadPapersForToday [FetchResult.success okBadBody, FetchResult.failure, FetchResult.failure]
        SampleSource.fetchFailed
        = LoadResult.api []
    ∧ getSamplePapers SampleSource.fetchFailed ≠ [] :=
  ⟨by decide, by decide, by decide⟩

/-- C3 (amended): when every intermediary attempt ends in a thrown fetch
or a non-ok status, both pipelines signal total failure without
throwing, and the records handed to the renderer are exactly the
Fallback Data Provider's output. -/
theorem c3_total_failure_fallback (proxies : List FetchResult) (s : SampleSource)
    (id : String) (sf : SampleJsonFetch)
    (h : ∀ f ∈ proxies, codeAttemptFails f = true) :
    loadPapersForToday proxies s = .fallbackUnavailable (getSamplePapers s)
    ∧ fetchPaperDetails id proxies sf = .sample (displaySamplePaperDetails id sf) := by
  constructor
  · unfold loadPapersForToday
    rw [listLoop_allFail proxies h]
  · unfold fetchPaperDetails
    rw [detailLoop_allFail proxies none h]

/-- C3 witness: three thrown attempts; the list page falls back to the
hardcoded sample list and the detail page to the sample record for the
requested id. -/
theorem c3_total_failure_fallback_witness :
    loadPapersForToday [FetchResult.failure, FetchResult.failure, FetchResult.failure]
        SampleSource.fetchFailed
      = LoadResult.fallbackUnavailable (getSamplePapers SampleSource.fetchFailed)
    ∧ fetchPaperDetails "2401.12345"
        [FetchResult.failure, FetchResult.failure, FetchResult.failure] SampleJsonFetch.failed
      = DetailResult.sample (displaySamplePaperDetails "2401.12345" SampleJsonFetch.failed) :=
  c3_total_failure_fallback [FetchResult.failure, FetchResult.failure, FetchResult.failure]
    SampleSource.fetchFailed "2401.12345" SampleJsonFetch.failed (by decide)

/- ### C4 -/

/-- C4: a document that parses, all of whose entries are well-formed,
normalizes to exactly one record per entry, and each record's `id` is
the final path segment of the corresponding entry's identifier URL. -/
theorem c4_normalizer_count_and_ids (entries : List Entry)
    (h : ∀ e ∈ entries, WellFormedEntry e) :
    ∃ papers, parseArxivResponse { hasParseError := false, entries := entries } = .ok papers
      ∧ papers.length = entries.length
      ∧ papers.map Paper.id = entries.map (fun e => lastPathSegment (e.idUrl.getD "")) := by
  suffices hsuff : ∃ papers, parseEntries entries = .ok papers
      ∧ papers.length = entries.length
      ∧ papers.map Paper.id = entries.map (fun e => lastPathSegment (e.idUrl.getD "")) by
    exact hsuff
  induction entries with
  | nil => exact ⟨[], rfl, rfl, rfl⟩
  | cons e rest ih =>
    obtain ⟨papers, hps, hlen, hids⟩ :=
      ih (fun x hx => h x (List.mem_cons_of_mem e hx))
    have he := h e (List.mem_cons_self e rest)
    obtain ⟨p, hp, hpid⟩ :
        ∃ p, normalizeEntry e = .ok p ∧ p.id = lastPathSegment (e.idUrl.getD "") :=
      ⟨_, normalizeEntry_ok e he.2, lastPathSegment_getD e.idUrl⟩
    refine ⟨p :: papers, ?_, by simp [hlen], by simp [hids, hpid]⟩
    simp only [parseEntries, hp, hps]

/-- C4 witness: a one-entry document yields one record whose id is the
last segment of the entry's identifier URL. -/
theorem c4_normalizer_count_and_ids_witness :
    ∃ papers, parseArxivResponse { hasParseError := false, entries := [feedEntry] } = .ok papers
      ∧ papers.length = [feedEntry].length
      ∧ papers.map Paper.id = [feedEntry].map (fun e => lastPathSegment (e.idUrl.getD "")) :=
  c4_normalizer_count_and_ids [feedEntry] (by decide)

/- ### C5 -/

/-- C5 counterexample: an entry whose category element misses its `term`
attribute makes the normalizer throw (the modelled `TypeError` of
`null.startsWith` on the `getAttribute` result), refuting "a missing
optional field never causes it to raise". -/
theorem c5_counterexample :
    normalizeEntry termlessEntry = .error ()
    ∧ parseArxivResponse { hasParseError := false, entries := [termlessEntry] } = .error () :=
  ⟨rfl, rfl⟩

/-- C5 (amended): for an entry whose category elements all carry their
`term` attribute, the normalizer never raises: every missing optional
child defaults to the empty string (or, for the pdf link, to the empty
string when no matching link exists), and an entry with no category tag
in the recognized namespace yields an empty categories sequence.  (The
one exception forced by the counterexample is a category element with a
missing `term` attribute, on which the normalizer raises.) -/
theorem c5_missing_fields_default (e : Entry)
    (h : ∀ c ∈ e.categoryNodes, c.term.isSome = true) :
    ∃ p, normalizeEntry e = .ok p
      ∧ (e.idUrl = none → p.id = "")
      ∧ (e.title = none → p.title = "")
      ∧ (e.published = none → p.published = "")
      ∧ (e.updated = none → p.updated = "")
      ∧ (e.summary = none → p.summary = "")
      ∧ (e.links.find? (fun l => l.title == some "pdf") = none → p.pdfLink = "")
      ∧ ((∀ c ∈ e.categoryNodes, ∀ t, c.term = some t → jsStartsWith t "cs." = false) →
          p.categories = []) := by
  refine ⟨_, normalizeEntry_ok e h, ?_, ?_, ?_, ?_, ?_, ?_, ?_⟩
  · intro h'; simp [h']
  · intro h'; simp [h']
  · intro h'; simp [h']
  · intro h'; simp [h']
  · intro h'; simp [h']
  · intro h'; simp [h']
  · intro hnone
    simp only []
    rw [List.filter_eq_nil_iff]
    intro t ht
    rcases List.mem_filterMap.mp ht with ⟨o, ho, hoo⟩
    rcases List.mem_map.mp ho with ⟨c, hc, rfl⟩
    simp [hnone c hc t hoo]

/-- C5 witness: an entry with all optional children missing and a single
`math.CO` category tag normalizes without raising to the all-default
record with an empty categories sequence. -/
theorem c5_missing_fields_default_witness :
    ∃ p, normalizeEntry bareEntry = .ok p
      ∧ (bareEntry.idUrl = none → p.id = "")
      ∧ (bareEntry.title = none → p.title = "")
      ∧ (bareEntry.published = none → p.published = "")
      ∧ (bareEntry.updated = none → p.updated = "")
      ∧ (bareEntry.summary = none → p.summary = "")
      ∧ (bareEntry.links.find? (fun l => l.title == some "pdf") = none → p.pdfLink = "")
      ∧ ((∀ c ∈ bareEntry.categoryNodes, ∀ t, c.term = some t → jsStartsWith t "cs." = false) →
          p.categories = []) :=
  c5_missing_fields_default bareEntry (by decide)

/- ### C6 -/

/-- C6 counterexample: the list page's normalizer succeeds on a document
that failed to parse, returning the same empty record sequence as for a
well-parsed zero-entry document — no `MalformedDocument` error, and the
two situations are indistinguishable in its output. -/
theorem c6_counterexample :
    parseArxivResponse { hasParseError := true, entries := [] } = .ok []
    ∧ parseArxivResponse { hasParseError := true, entries := [] }
        = parseArxivResponse { hasParseError := false, entries := [] } :=
  ⟨rfl, rfl⟩

/-- C6 (amended): only the detail path distinguishes malformed input: it
fails with the `'Invalid XML response'` error on any `parsererror`
document, while the list path's normalizer returns an empty sequence
for a malformed garbage document, identical to its output on a
well-parsed document with zero entries. -/
theorem c6_malformed_vs_empty :
    (∀ (es : List Entry) (id : String),
      parseDetailResponse { hasParseError := true, entries := es } id
        = .error DetailParseError.invalidXml)
    ∧ parseArxivResponse { hasParseError := true, entries := [] } = .ok []
    ∧ parseArxivResponse { hasParseError := false, entries := [] } = .ok [] :=
  ⟨fun _ _ => rfl, rfl, rfl⟩

/- ### C7 -/

/-- C7 counterexample: the record normalized from an entry tagged
`cs.ZZ` carries `cs.ZZ` in its categories, yet `cs.ZZ` is not a key of
`CATEGORY_MAP` — the normalizer enforces only the namespace test, not
membership in the static map. -/
theorem c7_counterexample :
    (normalizeEntry zzEntry).toOption.map Paper.categories = some ["cs.ZZ"]
    ∧ CATEGORY_MAP.find? (fun kv => kv.1 == "cs.ZZ") = none :=
  ⟨rfl, by decide⟩

/-- C7 (amended): every category string of a record produced by the
normalizer starts with the subject-tag namespace `cs.` (that is
the whole filter; `CATEGORY_MAP` membership is not enforced). -/
theorem c7_categories_cs_namespace (e : Entry) (p : Paper)
    (h : normalizeEntry e = .ok p) :
    ∀ t ∈ p.categories, jsStartsWith t "cs." = true := by
  unfold normalizeEntry at h
  cases hf : jsFilterCs (e.categoryNodes.map (fun c => c.term)) with
  | error err => simp [hf] at h
  | ok cats =>
    simp only [hf] at h
    cases h
    exact jsFilterCs_ok_startsWith _ cats hf

/-- C7 witness: the record of the fixture entry carries `cs.LG` only,
and that tag passes the namespace test. -/
theorem c7_categories_cs_namespace_witness :
    jsStartsWith "cs.LG" "cs." = true :=
  c7_categories_cs_namespace feedEntry
    { id := "2401.00001v1", title := "A Study", published := "2024-01-01T00:00:00Z"
      updated := "2024-01-02T00:00:00Z", summary := "A summary."
      categories := ["cs.LG"]
      authors := [{ name := "Ann Author", affiliation := "" }]
      pdfLink := "http://arxiv.org/pdf/2401.00001v1" }
    rfl "cs.LG" (by decide)

/- ### C8 -/

/-- C8 counterexample: with the static dataset unreadable and an id
absent from the hardcoded literal map, the detail fallback returns the
generic built-in record — not the first literal record (the
`2401.12345` paper), refuting the claim's final tier at this input. -/
theorem c8_counterexample :
    lookupKey hardcodedSamplePapers "9999.00000" = none
    ∧ displaySamplePaperDetails "9999.00000" SampleJsonFetch.failed = genericSamplePaper
    ∧ genericSamplePaper ≠ (hardcodedSamplePapers.headD ("", genericSamplePaper)).2 :=
  ⟨by decide, by decide, by decide⟩

/-- C8 (amended): lookup-by-id never ends in "not found".  When the
static dataset loads, it returns the record keyed by the id, else the
configured default record; when the dataset read fails, it returns the
hardcoded literal record keyed by the id, else the generic built-in
record. -/
theorem c8_lookup_priority :
    (∀ (id : String) (j : SampleJson) (p : DetailPaper),
      lookupKey j.samplePapers id = some p →
        displaySamplePaperDetails id (.fetched j) = p)
    ∧ (∀ (id : String) (j : SampleJson),
      lookupKey j.samplePapers id = none →
        displaySamplePaperDetails id (.fetched j) = j.defaultSamplePaper)
    ∧ (∀ (id : String) (p : DetailPaper),
      lookupKey hardcodedSamplePapers id = some p →
        displaySamplePaperDetails id .failed = p)
    ∧ (∀ id : String,
      lookupKey hardcodedSamplePapers id = none →
        displaySamplePaperDetails id .failed = genericSamplePaper) := by
  refine ⟨?_, ?_, ?_, ?_⟩
  · intro id j p hp
    simp [displaySamplePaperDetails, hp]
  · intro id j hp
    simp [displaySamplePaperDetails, hp]
  · intro id p hp
    simp [displaySamplePaperDetails, hp]
  · intro id hp
    simp [displaySamplePaperDetails, hp]

/-- C8 witness: with the dataset read failed, the id `2401.12346` hits
its hardcoded literal record. -/
theorem c8_lookup_priority_witness :
    displaySamplePaperDetails "2401.12346" SampleJsonFetch.failed
      = { title := "Sample Paper: Computer Vision Applications"
          authors := ["Alice Johnson"]
          published := "January 1, 2024"
          summary := "Exploring recent developments in computer vision and image recognition. This paper discusses novel approaches to object detection and image classification."
          pdfLink := "https://arxiv.org/pdf/2401.12346.pdf" } :=
  c8_lookup_priority.2.2.1 "2401.12346" _ (by decide)

/- ### C9 -/

/-- C9: evaluation at the failing input.  `generateBibtex` is a pure
computation (and reproduces the documented `author=` value), but
`generateStandardCitation` ends with the caller's authors array
shortened to `["John Doe"]` — `authors.pop()` mutates the argument
whenever it holds more than one name, contradicting the claimed
purity. -/
theorem c9_pop_mutates_authors :
    generateBibtex "2401.12345" "Sample Title" ["John Doe", "Jane Smith"] "2024-01-01T00:00:00Z"
      = "@article\x7b2401.12345,\n  title=\x7bSample Title\x7d,\n  author=\x7bDoe, John and Smith, Jane\x7d,\n  journal=\x7barXiv preprint arXiv:2401.12345\x7d,\n  year=\x7b2024\x7d\n\x7d"
    ∧ generateStandardCitation "Sample Title" ["John Doe", "Jane Smith"] "2024-01-01T00:00:00Z"
      = ("John Doe and Jane Smith (2024). Sample Title. arXiv preprint.", ["John Doe"])
    ∧ (["John Doe"] : List String) ≠ ["John Doe", "Jane Smith"] :=
  ⟨by decide, by decide, by decide⟩

/- ### C10 -/

theorem renderAux (fl l : List Paper)
    (h : (if fl.isEmpty then none else some (sortByPublishedDesc fl)) = some l) :
    SortedDesc l := by
  split at h
  · cases h
  · cases h
    exact sortByPublishedDesc_sorted fl

/-- C10: whatever sequence of papers the List View writes into the
container — for any selected category and any arrival order of the
records — is sorted by published timestamp in descending order. -/
theorem c10_rendered_sorted (currentCategory : String) (papers l : List Paper)
    (h : renderPaperList currentCategory papers = some l) :
    SortedDesc l :=
  renderAux _ l h

/-- C10 witness: the rendered singleton fallback list is sorted. -/
theorem c10_rendered_sorted_witness : SortedDesc [hardcodedSamplePaper] :=
  c10_rendered_sorted "all" [hardcodedSamplePaper] [hardcodedSamplePaper] (by decide)
